import Mathlib

/-!
Shallow embedding of the VIN-decoding cache service (`app/cache.py`,
`app/main.py`).

The store (an SQLite table keyed by the `vin` primary key, accessed through
a SQLAlchemy session) is modelled as a list of rows; the row order models
insertion order, and `db.query(VinCache).filter_by(vin=vin).first()` is
`List.find?` on that list.  Database faults (a `SQLAlchemyError` raised by
the driver during a transaction) are modelled by an explicit fault
parameter threaded into each operation that commits a transaction.
Exceptions that escape a function are modelled by `Except.error`; Python
values returned normally are `Except.ok`.
-/

namespace VinService

/-- Embeds the ORM row class `VinCache` (`cache.py` lines 20-28): columns
`vin` (primary key), `make`, `model`, `model_year`, `body_class`, `cached`. -/
structure VinCache where
  vin : String
  make : String
  model : String
  model_year : String
  body_class : String
  cached : Bool
deriving DecidableEq

/-- Embeds the pydantic response model `VinDecoded` (`cache.py` lines 39-45).
The pydantic regex constraint on `vin` is not re-checked here; the HTTP layer
(`main.py` line 41) rejects any path segment that does not match
`^[a-zA-Z0-9]{17}$` before the core is reached, and theorems that need it
carry a `validVin` hypothesis. -/
structure VinDecoded where
  vin : String
  make : String
  model : String
  model_year : String
  body_class : String
  cached : Bool
deriving DecidableEq

/-- The route regex `^[a-zA-Z0-9]{17}$` (`main.py` line 41, `cache.py`
line 40). -/
def validVin (vin : String) : Bool :=
  vin.length == 17 && vin.toList.all (fun c => c.isAlphanum)

/-- The store contents: the rows of the `vins` table in insertion order. -/
abbrev Store := List VinCache

/-- One element of the provider response's `Results` list: a JSON object
that may or may not carry each of the keys `Make`, `Model`, `ModelYear`,
`BodyClass` (`cache.py` lines 195-201). -/
structure RawResult where
  make : Option String
  model : Option String
  modelYear : Option String
  bodyClass : Option String
deriving DecidableEq

/-- The raw provider response seen by `process_vin`: it may carry an
`"error"` entry (placed there by `get_external_api` on transport failure)
and may carry a `Results` list (`cache.py` lines 191-195). -/
structure RawResponse where
  error : Option String
  results : Option (List RawResult)
deriving DecidableEq

/-- Embeds `db.query(VinCache).filter_by(vin=vin).first()` (`cache.py` line 69):
first row whose `vin` column equals the key, or `none`. -/
def lookupStore (s : Store) (vin : String) : Option VinCache :=
  s.find? (fun r => r.vin == vin)

/-- The row constructed by `cache_vin` (`cache.py` lines 108-115): the five
fields copied from the decoded data, keyed by the `vin` argument, with the
`cached` column hard-coded to `True`. -/
def mkVinCache (vin : String) (decoded_data : VinDecoded) : VinCache :=
  { vin := vin
    make := decoded_data.make
    model := decoded_data.model
    model_year := decoded_data.model_year
    body_class := decoded_data.body_class
    cached := true }

/-- Embeds `cache_vin` (`cache.py` lines 94-122): stages an INSERT of the new row
and commits.  The commit raises `SQLAlchemyError` either on a driver fault
(`fault = true`) or on a primary-key conflict (a row with this `vin`
already exists); `cache_vin` then rolls the transaction back (store
unchanged) and re-raises `SQLAlchemyError("Database transaction failed")`.
Otherwise the row is appended. -/
def cache_vin (fault : Bool) (s : Store) (vin : String)
    (decoded_data : VinDecoded) : Except String Store :=
  if fault || (lookupStore s vin).isSome then
    .error "Database transaction failed"
  else
    .ok (s ++ [mkVinCache vin decoded_data])

/-- The value `cache_check` returns normally: a `VinDecoded` payload or an
`Error(error=msg)` payload (`cache.py` lines 47-48, 92). -/
inductive CheckResult where
  | decoded (d : VinDecoded)
  | error (e : String)
deriving DecidableEq

/-- Embeds `cache_check` (`cache.py` lines 54-92), the cache-aside orchestrator.
`proc` is the decode path (`process_vin`, which wraps the remote call);
`fault` is the driver-fault flag for the store write.  On a hit the stored
row is returned with `cached=True` and the store is untouched.  On a miss
the decode runs; on decode success the row is written and the fresh decode
returned; a `ValueError` from the decode is caught and returned as an
`Error` payload; a `SQLAlchemyError` from `cache_vin` is not caught and
escapes (`Except.error`). -/
def cache_check (proc : String → Except String VinDecoded) (fault : Bool)
    (vin : String) (s : Store) : Except String (CheckResult × Store) :=
  match lookupStore s vin with
  | some result =>
    .ok (.decoded
      { vin := result.vin
        make := result.make
        model := result.model
        model_year := result.model_year
        body_class := result.body_class
        cached := true }, s)
  | none =>
    match proc vin with
    | .ok vin_decoded =>
      match cache_vin fault s vin vin_decoded with
      | .ok s2 => .ok (.decoded vin_decoded, s2)
      | .error e => .error e
    | .error e => .ok (.error e, s)

/-- Embeds `lookup_vin` (`main.py` lines 42-64): calls `cache_check` inside
`try/except ValueError`.  `cache_check` already converts every `ValueError`
into an `Error` payload, so the wrapper forwards its result unchanged; a
`SQLAlchemyError` from the store write is caught by neither layer and
escapes to the framework. -/
def lookup_vin (proc : String → Except String VinDecoded) (fault : Bool)
    (vin : String) (s : Store) : Except String (CheckResult × Store) :=
  cache_check proc fault vin s

/-- What `cache_delete_vin` returns: a `{"message": ...}` dict or an
`{"error": ..., "exception": ...}` dict (`cache.py` lines 140-150). -/
inductive DeleteResult where
  | message (m : String)
  | errorPayload (error exception : String)
deriving DecidableEq

/-- Embeds `cache_delete_vin` (`cache.py` lines 124-150): executes
`DELETE FROM vins WHERE vin = :vin` and commits.  A driver fault (modelled
as `fault = some e`, with `e` the exception text) rolls back and returns
the error payload; otherwise the matching rows are removed and the message
is chosen by whether the DELETE's rowcount was zero. -/
def cache_delete_vin (fault : Option String) (vin : String) (s : Store) :
    DeleteResult × Store :=
  match fault with
  | some e => (.errorPayload "Failed to delete VIN from cache." e, s)
  | none =>
    let s2 := s.filter (fun r => !(r.vin == vin))
    let rowcount := s.length - s2.length
    if rowcount == 0 then
      (.message ("No record found with VIN: " ++ vin ++ ". No deletion."), s2)
    else
      (.message ("Successfully removed VIN: " ++ vin ++ "."), s2)

/-- One exported row: the dict built by `VinCache.to_dict` (`cache.py`
lines 30-37) — the five persisted data columns; the `cached` column is not
included. -/
structure ExportRow where
  vin : String
  make : String
  model : String
  model_year : String
  body_class : String
deriving DecidableEq

/-- Embeds `VinCache.to_dict` (`cache.py` lines 30-37). -/
def VinCache.to_dict (r : VinCache) : ExportRow :=
  { vin := r.vin
    make := r.make
    model := r.model
    model_year := r.model_year
    body_class := r.body_class }

/-- Embeds `cache_export_database` (`cache.py` lines 152-175): full-table scan,
each row serialised through `to_dict`, written to `"vin_cache.parquet"`,
and that filename returned.  The pair models (filename, file rows). -/
def cache_export_database (s : Store) : String × List ExportRow :=
  ("vin_cache.parquet", s.map VinCache.to_dict)

/-- Embeds `process_vin` (`cache.py` lines 177-206), the decode normalizer, with
the raw provider response made an explicit argument (in the source it is
produced by `get_external_api vin`).  An `"error"` entry is re-raised as
`ValueError` with that exact message; otherwise the first element of
`Results` is read and any `KeyError`/`IndexError` (missing `Results` key,
empty list, or a missing field) becomes `ValueError("Invalid VIN data")`;
on success the decoded record carries `cached = False`. -/
def process_vin (vin : String) (resp : RawResponse) : Except String VinDecoded :=
  match resp.error with
  | some e => .error e
  | none =>
    match resp.results with
    | none => .error "Invalid VIN data"
    | some [] => .error "Invalid VIN data"
    | some (r :: _) =>
      match r.make, r.model, r.modelYear, r.bodyClass with
      | some mk, some md, some my, some bc =>
        .ok { vin := vin, make := mk, model := md, model_year := my,
              body_class := bc, cached := false }
      | _, _, _, _ => .error "Invalid VIN data"

/-- The key-uniqueness invariant of the `vins` table: `vin` is the primary
key, so no two rows share it. -/
def UniqueVins (s : Store) : Prop :=
  (s.map VinCache.vin).Nodup

/-- Store states reachable through the service's mutating entry points:
the empty table created at startup (`cache.py` line 50), a completed
`cache_check` request (any decode behaviour, any driver-fault behaviour),
or a `cache_delete_vin` request. -/
inductive Reachable : Store → Prop where
  | empty : Reachable []
  | check_step (proc : String → Except String VinDecoded) (fault : Bool)
      (vin : String) (s s2 : Store) (res : CheckResult)
      (hs : Reachable s)
      (hstep : cache_check proc fault vin s = .ok (res, s2)) : Reachable s2
  | delete_step (fault : Option String) (vin : String) (s : Store)
      (hs : Reachable s) : Reachable (cache_delete_vin fault vin s).2

/-! ### Concrete data used by witnesses and counterexamples -/

/-- The sample VIN used throughout the repository's tests. -/
def vinA : String := "1XPWD40X1ED215307"

/-- A first decoded payload for `vinA` (the tests' sample payload). -/
def payloadA : VinDecoded :=
  { vin := vinA, make := "MakeValue", model := "ModelValue",
    model_year := "2023", body_class := "BodyClassValue", cached := false }

/-- A second, different decoded payload for the same VIN. -/
def payloadB : VinDecoded :=
  { vin := vinA, make := "OtherMake", model := "OtherModel",
    model_year := "2024", body_class := "OtherBody", cached := false }

/-- A well-formed provider response for `vinA`. -/
def respOK : RawResponse :=
  { error := none,
    results := some [{ make := some "MakeValue", model := some "ModelValue",
                       modelYear := some "2023",
                       bodyClass := some "BodyClassValue" }] }

/-- The provider response `\x7b"error": "boom"\x7d`. -/
def respBoom : RawResponse := { error := some "boom", results := none }

/-- A provider response carrying both a transport error and an empty
`Results` list. -/
def respBoomEmpty : RawResponse := { error := some "boom", results := some [] }

/-- A provider response with no error entry and an empty `Results` list. -/
def respEmptyResults : RawResponse := { error := none, results := some [] }

/-! ### Helper lemmas -/

theorem lookupStore_insert_self {s : Store} {v : String}
    (h : lookupStore s v = none) (d : VinDecoded) :
    lookupStore (s ++ [mkVinCache v d]) v = some (mkVinCache v d) := by
  unfold lookupStore at *
  rw [List.find?_append, h]
  simp [mkVinCache]

theorem lookupStore_eq_none_iff (s : Store) (v : String) :
    lookupStore s v = none ↔ ∀ r ∈ s, r.vin ≠ v := by
  simp [lookupStore, List.find?_eq_none]

theorem lookupStore_filter_self (s : Store) (v : String) :
    lookupStore (s.filter (fun r => !(r.vin == v))) v = none := by
  rw [lookupStore_eq_none_iff]
  intro r hr
  have := (List.mem_filter.mp hr).2
  simpa using this

theorem length_filter_eq_iff_lookup_none (s : Store) (v : String) :
    (s.filter (fun r => !(r.vin == v))).length = s.length ↔
      lookupStore s v = none := by
  rw [List.filter_length_eq_length, lookupStore_eq_none_iff]
  simp

theorem process_vin_ok_fields {v : String} {resp : RawResponse}
    {d : VinDecoded} (h : process_vin v resp = .ok d) :
    d.cached = false ∧ d.vin = v := by
  unfold process_vin at h
  split at h
  · cases h
  · split at h
    · cases h
    · cases h
    · split at h
      · cases h
        exact ⟨rfl, rfl⟩
      · cases h

theorem cache_vin_ok_eq {fault : Bool} {s : Store} {v : String}
    {d : VinDecoded} {s2 : Store} (h : cache_vin fault s v d = .ok s2) :
    s2 = s ++ [mkVinCache v d] ∧ fault = false ∧ lookupStore s v = none := by
  unfold cache_vin at h
  split at h
  · cases h
  · rename_i hc
    simp only [Bool.or_eq_true, Option.isSome_iff_exists] at hc
    push_neg at hc
    refine ⟨(Except.ok.inj h).symm, ?_, ?_⟩
    · simpa using hc.1
    · cases hlk : lookupStore s v with
      | none => rfl
      | some r => exact absurd hlk (by simpa using hc.2 r)

/-! ### Claims -/

/-- C1, counterexample: the claim says the store insert is an upsert keyed
on `vin` — inserting two different payloads with the same VIN in sequence
succeeds and the second payload wins.  On the code, the second
`cache_vin` commit hits the primary-key constraint and raises
`SQLAlchemyError("Database transaction failed")`: the second insert does
not succeed, so the claim is false at this concrete input. -/
theorem upsert_claim_counterexample :
    payloadA ≠ payloadB ∧
    cache_vin false [] vinA payloadA = .ok [mkVinCache vinA payloadA] ∧
    cache_vin false [mkVinCache vinA payloadA] vinA payloadB =
      .error "Database transaction failed" := by
  refine ⟨by decide, rfl, rfl⟩

/-- C1, amended: the store insert is a plain keyed insert, not an upsert.
After a successful insert of a payload for VIN `v`, inserting a second
payload for the same `v` fails with the storage error (the transaction is
rolled back, so the first payload remains the one a lookup returns), and
inserts preserve key uniqueness, so the store never holds two records with
the same `vin`. -/
theorem cache_vin_insert_not_upsert (s s1 : Store) (v : String)
    (d1 d2 : VinDecoded) (h1 : cache_vin false s v d1 = .ok s1) :
    cache_vin false s1 v d2 = .error "Database transaction failed" ∧
    lookupStore s1 v = some (mkVinCache v d1) ∧
    (UniqueVins s → UniqueVins s1) := by
  obtain ⟨hs1, -, hmiss⟩ := cache_vin_ok_eq h1
  subst hs1
  have hlk := lookupStore_insert_self hmiss d1
  refine ⟨?_, hlk, ?_⟩
  · unfold cache_vin
    rw [hlk]
    rfl
  · intro hu
    unfold UniqueVins at *
    rw [List.map_append, List.nodup_append]
    refine ⟨hu, by simp, ?_⟩
    intro x hx
    simp only [List.mem_map] at hx
    obtain ⟨r, hr, hrx⟩ := hx
    have := (lookupStore_eq_none_iff s v).mp hmiss r hr
    simp [mkVinCache, ← hrx, this]

/-- C1, witness for the amended theorem at concrete inputs. -/
theorem cache_vin_insert_not_upsert_witness :
    cache_vin false [mkVinCache vinA payloadA] vinA payloadB =
        .error "Database transaction failed" ∧
    lookupStore [mkVinCache vinA payloadA] vinA =
        some (mkVinCache vinA payloadA) ∧
    (UniqueVins [] → UniqueVins [mkVinCache vinA payloadA]) :=
  cache_vin_insert_not_upsert [] [mkVinCache vinA payloadA] vinA
    payloadA payloadB rfl

/-- C2: for a valid VIN `v` not yet stored, a first `resolve(v)` whose
decode succeeds returns the decoded fields with `fromCache = false` and
writes the record; a second `resolve(v)` (under any later provider
response) returns identical make/model/modelYear/bodyClass fields with
`fromCache = true`. -/
theorem cache_hit_idempotent (resp resp2 : RawResponse) (s : Store)
    (v : String) (d : VinDecoded) (_hvalid : validVin v = true)
    (hmiss : lookupStore s v = none)
    (hok : process_vin v resp = .ok d) :
    d.cached = false ∧
    cache_check (fun x => process_vin x resp) false v s =
      .ok (.decoded d, s ++ [mkVinCache v d]) ∧
    cache_check (fun x => process_vin x resp2) false v
        (s ++ [mkVinCache v d]) =
      .ok (.decoded
        { vin := v, make := d.make, model := d.model,
          model_year := d.model_year, body_class := d.body_class,
          cached := true }, s ++ [mkVinCache v d]) := by
  refine ⟨(process_vin_ok_fields hok).1, ?_, ?_⟩
  · simp [cache_check, hmiss, hok, cache_vin]
  · unfold cache_check
    rw [lookupStore_insert_self hmiss d]
    simp [mkVinCache]

/-- C2, witness: the scenario at the repository's sample VIN and payload. -/
theorem cache_hit_idempotent_witness :
    payloadA.cached = false ∧
    cache_check (fun x => process_vin x respOK) false vinA [] =
      .ok (.decoded payloadA, [] ++ [mkVinCache vinA payloadA]) ∧
    cache_check (fun x => process_vin x respOK) false vinA
        ([] ++ [mkVinCache vinA payloadA]) =
      .ok (.decoded
        { vin := vinA, make := payloadA.make, model := payloadA.model,
          model_year := payloadA.model_year,
          body_class := payloadA.body_class,
          cached := true }, [] ++ [mkVinCache vinA payloadA]) :=
  cache_hit_idempotent respOK respOK [] vinA payloadA (by decide) rfl rfl

/-- C3: when the lookup misses and the decode path fails with message
`msg`, `resolve` returns the `Error` payload carrying exactly `msg` and
the store is exactly what it was before the call — nothing is written on
failure (for any driver-fault behaviour of the store, which is never
consulted). -/
theorem decode_failure_no_store_write (resp : RawResponse) (fault : Bool)
    (s : Store) (v : String) (msg : String)
    (hmiss : lookupStore s v = none)
    (hfail : process_vin v resp = .error msg) :
    cache_check (fun x => process_vin x resp) fault v s =
      .ok (.error msg, s) := by
  simp [cache_check, hmiss, hfail]

/-- C3, witness: a provider-side error response on an empty store. -/
theorem decode_failure_no_store_write_witness :
    cache_check (fun x => process_vin x respBoom) false vinA [] =
      .ok (.error "boom", []) :=
  decode_failure_no_store_write respBoom false [] vinA "boom" rfl rfl

/-- C4, counterexample: the claim quantifies over every response whose
results list is empty, but a response that also carries a transport-error
entry (here `\x7b"error": "boom", "Results": []\x7d`) makes `process_vin`
fail with `"boom"`, not `"Invalid VIN data"`: the error entry is checked
first. -/
theorem normalize_malformed_claim_counterexample :
    respBoomEmpty.results = some [] ∧
    process_vin vinA respBoomEmpty = .error "boom" ∧
    process_vin vinA respBoomEmpty ≠ .error "Invalid VIN data" := by
  refine ⟨rfl, rfl, fun h => absurd (Except.error.inj h) (by decide)⟩

/-- C4, amended: for every VIN and every raw provider response that
carries no transport-error entry, if the results list is empty or its
first element lacks any of the make/model/modelYear/bodyClass fields,
`process_vin` fails with exactly `"Invalid VIN data"`. -/
theorem normalize_malformed_invalid_vin_data (v : String)
    (resp : RawResponse) (hnoerr : resp.error = none)
    (hmal : resp.results = some [] ∨
        ∃ r rest, resp.results = some (r :: rest) ∧
          (r.make = none ∨ r.model = none ∨ r.modelYear = none ∨
            r.bodyClass = none)) :
    process_vin v resp = .error "Invalid VIN data" := by
  rcases hmal with h | ⟨r, rest, hres, hf⟩
  · simp [process_vin, hnoerr, h]
  · cases hm1 : r.make <;> cases hm2 : r.model <;>
      cases hm3 : r.modelYear <;> cases hm4 : r.bodyClass <;>
      simp_all [process_vin, hnoerr, hres]

/-- C4, witness for the amended theorem: empty results list, no error
entry. -/
theorem normalize_malformed_invalid_vin_data_witness :
    process_vin vinA respEmptyResults = .error "Invalid VIN data" :=
  normalize_malformed_invalid_vin_data vinA respEmptyResults rfl
    (Or.inl rfl)

/-- C5: a raw provider response carrying a transport-level error message
`m` makes `process_vin` fail with exactly `m`, passed through verbatim. -/
theorem normalize_propagates_provider_error (v : String)
    (resp : RawResponse) (m : String) (herr : resp.error = some m) :
    process_vin v resp = .error m := by
  simp [process_vin, herr]

/-- C5, witness: the response `\x7b"error": "boom"\x7d` fails with exactly
`"boom"`. -/
theorem normalize_propagates_provider_error_witness :
    process_vin vinA respBoom = .error "boom" :=
  normalize_propagates_provider_error vinA respBoom "boom" rfl

/-- C6: when the VIN is already stored, `cache_check` returns the stored
record with `cached = true`, leaves the store untouched, and its result is
identical for any two behaviours of the decode path and of the store
driver — the remote decoder is never consulted on a hit. -/
theorem cache_hit_no_remote_call (s : Store) (v : String) (r : VinCache)
    (hhit : lookupStore s v = some r)
    (proc1 proc2 : String → Except String VinDecoded) (f1 f2 : Bool) :
    cache_check proc1 f1 v s =
      .ok (.decoded
        { vin := r.vin, make := r.make, model := r.model,
          model_year := r.model_year, body_class := r.body_class,
          cached := true }, s) ∧
    cache_check proc1 f1 v s = cache_check proc2 f2 v s := by
  constructor <;> simp [cache_check, hhit]

/-- C6, witness: a stored sample VIN, compared under two opposite remote
behaviours (one failing, one returning a different payload). -/
theorem cache_hit_no_remote_call_witness :
    cache_check (fun x => .error ("remote down " ++ x)) true vinA
        [mkVinCache vinA payloadA] =
      .ok (.decoded
        { vin := (mkVinCache vinA payloadA).vin,
          make := (mkVinCache vinA payloadA).make,
          model := (mkVinCache vinA payloadA).model,
          model_year := (mkVinCache vinA payloadA).model_year,
          body_class := (mkVinCache vinA payloadA).body_class,
          cached := true }, [mkVinCache vinA payloadA]) ∧
    cache_check (fun x => .error ("remote down " ++ x)) true vinA
        [mkVinCache vinA payloadA] =
      cache_check (fun _ => .ok payloadB) false vinA
        [mkVinCache vinA payloadA] :=
  cache_hit_no_remote_call [mkVinCache vinA payloadA] vinA
    (mkVinCache vinA payloadA) rfl _ _ true false

/-- C7: on a miss whose decode succeeds, a failing store write makes the
request fail: `lookup_vin` does not return a success value — the
`SQLAlchemyError` raised by `cache_vin` is caught neither by `cache_check`
nor by `lookup_vin` and propagates to the caller. -/
theorem storage_failure_propagates
    (proc : String → Except String VinDecoded) (s : Store) (v : String)
    (d : VinDecoded) (hmiss : lookupStore s v = none)
    (hok : proc v = .ok d) :
    lookup_vin proc true v s = .error "Database transaction failed" := by
  simp [lookup_vin, cache_check, hmiss, hok, cache_vin]

/-- C7, witness: empty store, decode succeeding, driver fault on the
write. -/
theorem storage_failure_propagates_witness :
    lookup_vin (fun _ => .ok payloadA) true vinA [] =
      .error "Database transaction failed" :=
  storage_failure_propagates (fun _ => .ok payloadA) [] vinA payloadA
    rfl rfl

/-- C8: `cache_delete_vin` returns the `"Successfully removed VIN: ..."`
message exactly when a record with the key was present (and a subsequent
lookup then misses), the `"No record found ..."` message exactly when no
record was present (store untouched, no error), the two messages never
coincide, and a storage fault yields the error payload. -/
theorem delete_outcomes (s : Store) (v : String) :
    ((lookupStore s v).isSome →
        (cache_delete_vin none v s).1 =
            .message ("Successfully removed VIN: " ++ v ++ ".") ∧
        lookupStore (cache_delete_vin none v s).2 v = none) ∧
    (lookupStore s v = none →
        (cache_delete_vin none v s).1 =
            .message ("No record found with VIN: " ++ v ++
              ". No deletion.") ∧
        (cache_delete_vin none v s).2 = s) ∧
    ("Successfully removed VIN: " ++ v ++ "." : String) ≠
        ("No record found with VIN: " ++ v ++ ". No deletion.") ∧
    (∀ e, cache_delete_vin (some e) v s =
        (.errorPayload "Failed to delete VIN from cache." e, s)) := by
  refine ⟨?_, ?_, ?_, fun e => rfl⟩
  · intro h
    have hne : ¬ lookupStore s v = none := by
      cases hl : lookupStore s v with
      | none => rw [hl] at h; cases h
      | some r => simp
    have hlen : (s.filter (fun r => !(r.vin == v))).length ≠ s.length :=
      fun hc => hne ((length_filter_eq_iff_lookup_none s v).mp hc)
    have hle := List.length_filter_le (fun r => !(r.vin == v)) s
    have hfalse :
        (s.length - (s.filter (fun r => !(r.vin == v))).length == 0)
          = false := by
      simp only [beq_eq_false_iff_ne, ne_eq]
      omega
    exact ⟨by simp [cache_delete_vin, hfalse],
      by simp [cache_delete_vin, hfalse, lookupStore_filter_self]⟩
  · intro h
    have hall := (lookupStore_eq_none_iff s v).mp h
    have hfeq : s.filter (fun r => !(r.vin == v)) = s := by
      rw [List.filter_eq_self]
      intro a ha
      simpa using hall a ha
    simp [cache_delete_vin, hfeq]
  · intro h
    have h2 := congrArg String.length h
    simp only [String.length_append] at h2
    have e1 : ("Successfully removed VIN: ").length = 26 := rfl
    have e2 : ("No record found with VIN: ").length = 26 := rfl
    have e3 : (". No deletion.").length = 14 := rfl
    have e4 : (".").length = 1 := rfl
    rw [e1, e2, e3, e4] at h2
    omega

/-- C8, witness: deleting the stored sample VIN succeeds and a lookup then
misses; deleting from the empty store reports no record. -/
theorem delete_outcomes_witness :
    ((cache_delete_vin none vinA [mkVinCache vinA payloadA]).1 =
        .message ("Successfully removed VIN: " ++ vinA ++ ".") ∧
      lookupStore (cache_delete_vin none vinA
        [mkVinCache vinA payloadA]).2 vinA = none) ∧
    ((cache_delete_vin none vinA []).1 =
        .message ("No record found with VIN: " ++ vinA ++
          ". No deletion.") ∧
      (cache_delete_vin none vinA []).2 = []) :=
  ⟨(delete_outcomes [mkVinCache vinA payloadA] vinA).1 rfl,
   (delete_outcomes [] vinA).2.1 rfl⟩

/-- C9: exporting a store holding exactly one record produces the filename
`"vin_cache.parquet"` and exactly one row whose five columns equal that
record's persisted fields; the `cached` column does not influence the row
(it is not exported). -/
theorem export_single_record (r : VinCache) :
    cache_export_database [r] =
      ("vin_cache.parquet",
        [{ vin := r.vin, make := r.make, model := r.model,
           model_year := r.model_year, body_class := r.body_class }]) ∧
    (∀ b, VinCache.to_dict { r with cached := b } = VinCache.to_dict r) :=
  ⟨rfl, fun _ => rfl⟩

theorem cache_check_ok_store {proc : String → Except String VinDecoded}
    {fault : Bool} {vin : String} {s : Store} {res : CheckResult}
    {s2 : Store} (h : cache_check proc fault vin s = .ok (res, s2)) :
    s2 = s ∨ ∃ d, s2 = s ++ [mkVinCache vin d] := by
  unfold cache_check at h
  split at h
  · left
    exact (congrArg Prod.snd (Except.ok.inj h)).symm
  · split at h
    · rename_i d hd
      split at h
      · rename_i s3 hw
        right
        refine ⟨d, ?_⟩
        have := (cache_vin_ok_eq hw).1
        have hs : s3 = s2 := congrArg Prod.snd (Except.ok.inj h)
        rw [← hs, this]
      · cases h
    · left
      exact (congrArg Prod.snd (Except.ok.inj h)).symm

/-- C10: in every store state reachable through the service's operations,
every stored record carries `cached = true` (the miss-path write hard-codes
the flag), while the value `process_vin` returns for the fresh decode of
that same request always carries `cached = false` — so the persisted flag
never matches the `fromCache` value reported on the request that created
the record. -/
theorem stored_cached_true_invariant :
    (∀ s, Reachable s → ∀ r ∈ s, r.cached = true) ∧
    (∀ (v : String) (resp : RawResponse) (d : VinDecoded),
        process_vin v resp = .ok d → d.cached = false) := by
  constructor
  · intro s hs
    induction hs with
    | empty => intro r hr; cases hr
    | check_step proc fault vin s s2 res hs hstep ih =>
      intro r hr
      rcases cache_check_ok_store hstep with he | ⟨d, he⟩
      · exact ih r (he ▸ hr)
      · rw [he] at hr
        rcases List.mem_append.mp hr with hin | hnew
        · exact ih r hin
        · rw [List.mem_singleton.mp hnew]
          rfl
    | delete_step fault vin s hs ih =>
      intro r hr
      cases fault with
      | some e => exact ih r hr
      | none =>
        have hkey : (cache_delete_vin none vin s).2 =
            s.filter (fun x => !(x.vin == vin)) := by
          simp only [cache_delete_vin]
          split <;> rfl
        rw [hkey] at hr
        exact ih r (List.mem_filter.mp hr).1
  · intro v resp d h
    exact (process_vin_ok_fields h).1

/-- C10, witness: the store reached by one successful miss-path request on
the empty store holds the sample record with `cached = true`, while the
fresh decode that created it carried `cached = false`. -/
theorem stored_cached_true_invariant_witness :
    (mkVinCache vinA payloadA).cached = true ∧ payloadA.cached = false :=
  ⟨stored_cached_true_invariant.1 [mkVinCache vinA payloadA]
      (Reachable.check_step (fun x => process_vin x respOK) false vinA []
        [mkVinCache vinA payloadA] (.decoded payloadA) Reachable.empty rfl)
      (mkVinCache vinA payloadA) (List.mem_singleton.mpr rfl),
   stored_cached_true_invariant.2 vinA respOK payloadA rfl⟩

end VinService
